import Mathlib

/-!
# nfd-autoreg: automatic prefix registration

A shallow embedding of `tools/nfd-autoreg.cpp` (class `AutoregServer`) and theorems about
which `RibRegisterCommand`s the server starts for a face.

The server is modelled by explicit state passing.  The only part of the state that the
embedded member functions change is `m_controller`, recorded as the ordered list of the
control parameters handed to `m_controller.start<RibRegisterCommand>`.  The log lines
written to `std::cerr` are not part of the model.
-/

namespace nfd.tools.autoreg

/-! ## Library types (ndn-cxx, boost.asio) -/

/-- An `ndn::Name`, as its list of components. -/
abbrev Name := List String

/-- The enumeration `ndn::nfd::FacePersistency`. -/
inductive FacePersistency where
  | FACE_PERSISTENCY_NONE
  | FACE_PERSISTENCY_PERSISTENT
  | FACE_PERSISTENCY_ON_DEMAND
  | FACE_PERSISTENCY_PERMANENT
  deriving DecidableEq, Repr

/-- The enumeration `ndn::nfd::FaceScope`. -/
inductive FaceScope where
  | FACE_SCOPE_NONE
  | FACE_SCOPE_NON_LOCAL
  | FACE_SCOPE_LOCAL
  deriving DecidableEq, Repr

/-- The enumeration `ndn::nfd::FaceEventKind`. -/
inductive FaceEventKind where
  | FACE_EVENT_NONE
  | FACE_EVENT_CREATED
  | FACE_EVENT_DESTROYED
  | FACE_EVENT_UP
  | FACE_EVENT_DOWN
  deriving DecidableEq, Repr

/-- The enumeration `ndn::nfd::RouteOrigin`. -/
inductive RouteOrigin where
  | ROUTE_ORIGIN_NONE
  | ROUTE_ORIGIN_APP
  | ROUTE_ORIGIN_AUTOREG
  | ROUTE_ORIGIN_CLIENT
  | ROUTE_ORIGIN_AUTOCONF
  | ROUTE_ORIGIN_NLSR
  | ROUTE_ORIGIN_PREFIXANN
  | ROUTE_ORIGIN_STATIC
  deriving DecidableEq, Repr

/-- The value `ndn::time::milliseconds::max()`: the largest signed 64-bit count. -/
def milliseconds_max : Nat := 2 ^ 63 - 1

/-- A `boost::asio::ip::address`: an IPv4 address as its 32-bit value in host byte order
(`to_uint`), or an IPv6 address as the 128-bit value of its sixteen bytes read big-endian.
Values are read modulo `2 ^ 32` and `2 ^ 128`. -/
inductive Address where
  | v4 (a : Nat)
  | v6 (a : Nat)
  deriving DecidableEq, Repr

/-- The default-constructed `boost::asio::ip::address()`: the IPv4 address 0.0.0.0. -/
def Address.default : Address := Address.v4 0

/-- The member `address::is_multicast`: for IPv4 `(to_uint() & 0xF0000000) == 0xE0000000`,
that is, the top four bits are 1110; for IPv6 the first byte is 0xff. -/
def Address.is_multicast : Address → Bool
  | Address.v4 a => (a % 2 ^ 32) / 2 ^ 28 == 14
  | Address.v6 a => (a % 2 ^ 128) / 2 ^ 120 == 255

/-- The text-to-address conversion behind `address::from_string` (`inet_pton`, IPv6 tried
first and then IPv4): `none` when the text is not an address.  It is a parameter of the
embedding. -/
abbrev AddressParser := String → Option Address

/-- The call `boost::asio::ip::address::from_string(str, ec)`: on success the parsed address
with `ec` clear; on failure the default-constructed address with `ec` set.  The second
component says whether `ec` is set. -/
def from_string (parse : AddressParser) (str : String) : Address × Bool :=
  match parse str with
  | some a => (a, false)
  | none => (Address.default, true)

/-- An `ndn::FaceUri`, already split in its parts. -/
structure FaceUri where
  scheme : String
  host : String
  port : String
  deriving DecidableEq, Repr

/-- The control parameters of one started `RibRegisterCommand`. -/
structure ControlParameters where
  name : Name
  faceId : Nat
  origin : RouteOrigin
  cost : Nat
  expirationPeriod : Nat
  deriving DecidableEq, Repr

/-- The `ndn::nfd::Controller`, recorded as the commands started on it, oldest first. -/
abbrev Controller := List ControlParameters

/-- The call `m_controller.start<RibRegisterCommand>(params, onSuccess, onFailure)`: the
command is sent; the two callbacks only write a log line when the response arrives. -/
def Controller.start (c : Controller) (params : ControlParameters) : Controller :=
  c ++ [params]

/-- The fields of an `ndn::nfd::FaceEventNotification` that the server reads; `remoteUri`
is the `FaceUri` built from `getRemoteUri()`. -/
structure FaceEventNotification where
  kind : FaceEventKind
  faceId : Nat
  remoteUri : FaceUri
  faceScope : FaceScope
  facePersistency : FacePersistency
  deriving DecidableEq, Repr

/-- The fields of an `ndn::nfd::FaceStatus` dataset entry; `remoteUri` is the `FaceUri`
built from `getRemoteUri()`. -/
structure FaceStatus where
  faceId : Nat
  remoteUri : FaceUri
  faceScope : FaceScope
  facePersistency : FacePersistency
  deriving DecidableEq, Repr

/-! ## `core/network.hpp` -/

/-- The address family of a network range. -/
inductive AddressFamily where
  | ipv4
  | ipv6
  deriving DecidableEq, Repr

/-- Modelled from the spec: the class `Network` of `core/network.hpp`, which is not among
the sources.  The spec describes a range as a base address, a prefix length and an address
family (a CIDR block). -/
structure Network where
  family : AddressFamily
  base : Nat
  prefixLength : Nat
  deriving DecidableEq, Repr

/-- Modelled from the spec: `Network::doesContain` of `core/network.hpp`.  Membership
requires the family of the address to match, else it is false; within a family the address
is in the block when its leading `prefixLength` bits are those of the base address. -/
def Network.doesContain (net : Network) (address : Address) : Bool :=
  match net.family, address with
  | AddressFamily.ipv4, Address.v4 a =>
      (a % 2 ^ 32) / 2 ^ (32 - net.prefixLength) == (net.base % 2 ^ 32) / 2 ^ (32 - net.prefixLength)
  | AddressFamily.ipv6, Address.v6 a =>
      (a % 2 ^ 128) / 2 ^ (128 - net.prefixLength)
        == (net.base % 2 ^ 128) / 2 ^ (128 - net.prefixLength)
  | _, _ => false

/-- Modelled from the spec: `Network::getMaxRangeV4` of `core/network.hpp`, the maximal
IPv4 range `0.0.0.0/0`. -/
def Network.getMaxRangeV4 : Network :=
  { family := AddressFamily.ipv4, base := 0, prefixLength := 0 }

/-- Modelled from the spec: `Network::getMaxRangeV6` of `core/network.hpp`, the maximal
IPv6 range `::/0`. -/
def Network.getMaxRangeV6 : Network :=
  { family := AddressFamily.ipv6, base := 0, prefixLength := 0 }

/-! ## `AutoregServer` -/

/-- The data members of `AutoregServer` that the embedded functions read or change. -/
structure AutoregServer where
  m_controller : Controller
  m_autoregPrefixes : List Name
  m_allFacesPrefixes : List Name
  m_cost : Nat
  m_whiteList : List Network
  m_blackList : List Network
  deriving DecidableEq, Repr

/-- A freshly constructed `AutoregServer`: empty vectors, `m_cost = 255`, nothing started. -/
def AutoregServer.init : AutoregServer :=
  { m_controller := []
    m_autoregPrefixes := []
    m_allFacesPrefixes := []
    m_cost := 255
    m_whiteList := []
    m_blackList := [] }

/-- `AutoregServer::hasAllowedSchema`. -/
def hasAllowedSchema (uri : FaceUri) : Bool :=
  let scheme := uri.scheme
  scheme == "udp4" || scheme == "tcp4" ||
  scheme == "udp6" || scheme == "tcp6"

/-- `AutoregServer::isBlacklisted`. -/
def isBlacklisted (s : AutoregServer) (address : Address) : Bool :=
  s.m_blackList.any (fun net => net.doesContain address)

/-- `AutoregServer::isWhitelisted`. -/
def isWhitelisted (s : AutoregServer) (address : Address) : Bool :=
  s.m_whiteList.any (fun net => net.doesContain address)

/-- `AutoregServer::registerPrefixesForFace`: the range-for loop over `prefixes`, one
`m_controller.start` per iteration. -/
def registerPrefixesForFace (s : AutoregServer) (faceId : Nat) : List Name → AutoregServer
  | [] => s
  | pfx :: rest =>
      registerPrefixesForFace
        { s with
          m_controller := s.m_controller.start
            { name := pfx
              faceId := faceId
              origin := RouteOrigin.ROUTE_ORIGIN_AUTOREG
              cost := s.m_cost
              expirationPeriod := milliseconds_max } }
        faceId rest

/-- `AutoregServer::registerPrefixesIfNeeded`.  The error code filled in by `from_string`
is not read. -/
def registerPrefixesIfNeeded (parse : AddressParser) (s : AutoregServer) (faceId : Nat)
    (uri : FaceUri) (facePersistency : FacePersistency) : AutoregServer :=
  if hasAllowedSchema uri then
    let address := (from_string parse uri.host).1
    if !address.is_multicast then
      -- register all-face prefixes
      let s1 := registerPrefixesForFace s faceId s.m_allFacesPrefixes
      -- register autoreg prefixes if new face is on-demand and not blacklisted and whitelisted
      if facePersistency == FacePersistency.FACE_PERSISTENCY_ON_DEMAND &&
          !isBlacklisted s1 address && isWhitelisted s1 address then
        registerPrefixesForFace s1 faceId s1.m_autoregPrefixes
      else s1
    else s
  else s

/-- `AutoregServer::onNotification`. -/
def onNotification (parse : AddressParser) (s : AutoregServer)
    (notification : FaceEventNotification) : AutoregServer :=
  if notification.kind == FaceEventKind.FACE_EVENT_CREATED &&
      notification.faceScope != FaceScope.FACE_SCOPE_LOCAL then
    registerPrefixesIfNeeded parse s notification.faceId notification.remoteUri
      notification.facePersistency
  else s

/-- The success callback that `AutoregServer::startFetchingFaceStatusDataset` passes to
`m_controller.fetch<FaceDataset>`: the loop over the fetched face statuses. -/
def onFaceDataset (parse : AddressParser) (s : AutoregServer) : List FaceStatus → AutoregServer
  | [] => s
  | faceStatus :: rest =>
      onFaceDataset parse
        (registerPrefixesIfNeeded parse s faceStatus.faceId faceStatus.remoteUri
          faceStatus.facePersistency)
        rest

/-- The values that `boost::program_options` stores for the command line: the composing
vector options in the order given, `cost` when given, and the two flags. -/
structure Options where
  help : Bool
  version : Bool
  prefixes : List Name
  allFacesPrefixes : List Name
  cost : Option Nat
  whitelist : List Network
  blacklist : List Network
  deriving DecidableEq, Repr

/-- The effect of `po::notify` on the members bound in `AutoregServer::main`. -/
def notify (s : AutoregServer) (options : Options) : AutoregServer :=
  { s with
    m_autoregPrefixes := s.m_autoregPrefixes ++ options.prefixes
    m_allFacesPrefixes := s.m_allFacesPrefixes ++ options.allFacesPrefixes
    m_cost := options.cost.getD s.m_cost
    m_whiteList := s.m_whiteList ++ options.whitelist
    m_blackList := s.m_blackList ++ options.blacklist }

/-- How `AutoregServer::main` goes on after the command line is parsed: it returns at once
with an exit code, or goes on to fetch the face dataset and process notifications. -/
inductive Startup where
  | exit (code : Nat)
  | serve (s : AutoregServer)
  deriving DecidableEq, Repr

/-- `AutoregServer::main` from `po::notify` up to the call of
`startFetchingFaceStatusDataset`. -/
def main (options : Options) : Startup :=
  let s := notify AutoregServer.init options
  if options.help then Startup.exit 0
  else if options.version then Startup.exit 0
  else if s.m_autoregPrefixes.isEmpty && s.m_allFacesPrefixes.isEmpty then Startup.exit 2
  else if s.m_whiteList.isEmpty then
    -- Allow everything
    Startup.serve
      { s with m_whiteList := s.m_whiteList ++ [Network.getMaxRangeV4, Network.getMaxRangeV6] }
  else Startup.serve s

/-! ## A sample address parser for concrete inputs -/

/-- The value of a decimal octet of one to three digits, at most 255. -/
def octet (cs : List Char) : Option Nat :=
  if cs.length = 0 ∨ 3 < cs.length then none
  else if cs.all Char.isDigit then
    let n := cs.foldl (fun acc c => 10 * acc + (c.toNat - 48)) 0
    if n ≤ 255 then some n else none
  else none

/-- The pieces of a text between dots. -/
def splitDots : List Char → List (List Char)
  | [] => [[]]
  | c :: rest =>
      if c = '.' then [] :: splitDots rest
      else
        match splitDots rest with
        | [] => [[c]]
        | piece :: pieces => (c :: piece) :: pieces

/-- A sample `AddressParser` that accepts dotted-quad IPv4 text only. -/
def dottedQuad : AddressParser := fun str =>
  match (splitDots str.toList).map octet with
  | [some a, some b, some c, some d] => some (Address.v4 (((a * 256 + b) * 256 + c) * 256 + d))
  | _ => none

/-! ## Sample configurations and faces -/

/-- The sample command line `nfd-autoreg -i /autoreg -a /all`. -/
def sampleOptions : Options :=
  { help := false
    version := false
    prefixes := [["autoreg"]]
    allFacesPrefixes := [["all"]]
    cost := none
    whitelist := []
    blacklist := [] }

/-- The server that `main` sets up for `sampleOptions`. -/
def sampleServer : AutoregServer :=
  { m_controller := []
    m_autoregPrefixes := [["autoreg"]]
    m_allFacesPrefixes := [["all"]]
    m_cost := 255
    m_whiteList := [Network.getMaxRangeV4, Network.getMaxRangeV6]
    m_blackList := [] }

/-- The sample server with the range 192.0.2.0/24 on its black list. -/
def blacklistServer : AutoregServer :=
  { sampleServer with
    m_blackList := [{ family := AddressFamily.ipv4, base := 3221225984, prefixLength := 24 }] }

/-- The remote URI udp4://192.0.2.5:6363. -/
def sampleUri : FaceUri := { scheme := "udp4", host := "192.0.2.5", port := "6363" }

/-- The server that `main` sets up for `nfd-autoreg -i /ndn -a /ndn`: the same name is an
autoreg name and an all-faces name. -/
def overlapServer : AutoregServer :=
  { m_controller := []
    m_autoregPrefixes := [["ndn"]]
    m_allFacesPrefixes := [["ndn"]]
    m_cost := 255
    m_whiteList := [Network.getMaxRangeV4, Network.getMaxRangeV6]
    m_blackList := [] }

/-- The dataset entry of an on-demand TCP face from a local application on the loopback
address: its scope is local and its remote URI is tcp4://127.0.0.1:45678. -/
def loopbackFace : FaceStatus :=
  { faceId := 300
    remoteUri := { scheme := "tcp4", host := "127.0.0.1", port := "45678" }
    faceScope := FaceScope.FACE_SCOPE_LOCAL
    facePersistency := FacePersistency.FACE_PERSISTENCY_ON_DEMAND }

/-- The notification that the face of `loopbackFace` was created. -/
def loopbackCreated : FaceEventNotification :=
  { kind := FaceEventKind.FACE_EVENT_CREATED
    faceId := 300
    remoteUri := { scheme := "tcp4", host := "127.0.0.1", port := "45678" }
    faceScope := FaceScope.FACE_SCOPE_LOCAL
    facePersistency := FacePersistency.FACE_PERSISTENCY_ON_DEMAND }

/-- The remote URI udp4://example.com:6363, whose host is not an address. -/
def hostnameUri : FaceUri := { scheme := "udp4", host := "example.com", port := "6363" }

/-- The control parameters that `registerPrefixesForFace` builds for one name. -/
def autoregCommand (cost faceId : Nat) (pfx : Name) : ControlParameters :=
  { name := pfx
    faceId := faceId
    origin := RouteOrigin.ROUTE_ORIGIN_AUTOREG
    cost := cost
    expirationPeriod := milliseconds_max }

/-! ## Helper lemmas -/

theorem registerPrefixesForFace_eq (s : AutoregServer) (faceId : Nat) (prefixes : List Name) :
    registerPrefixesForFace s faceId prefixes =
      { s with m_controller := s.m_controller ++ prefixes.map (autoregCommand s.m_cost faceId) } := by
  induction prefixes generalizing s with
  | nil => simp [registerPrefixesForFace]
  | cons pfx rest ih =>
      rw [registerPrefixesForFace, ih]
      simp [Controller.start, autoregCommand]

theorem registerPrefixesIfNeeded_eq (parse : AddressParser) (s : AutoregServer) (faceId : Nat)
    (uri : FaceUri) (p : FacePersistency) :
    registerPrefixesIfNeeded parse s faceId uri p =
      if hasAllowedSchema uri = true ∧ (from_string parse uri.host).1.is_multicast = false then
        { s with
          m_controller :=
            s.m_controller ++ s.m_allFacesPrefixes.map (autoregCommand s.m_cost faceId) ++
              (if p = FacePersistency.FACE_PERSISTENCY_ON_DEMAND ∧
                  isBlacklisted s (from_string parse uri.host).1 = false ∧
                  isWhitelisted s (from_string parse uri.host).1 = true then
                s.m_autoregPrefixes.map (autoregCommand s.m_cost faceId)
              else []) }
      else s := by
  unfold registerPrefixesIfNeeded
  by_cases hs : hasAllowedSchema uri = true
  · by_cases hm : (from_string parse uri.host).1.is_multicast = true
    · simp [hs, hm]
    · simp only [Bool.not_eq_true] at hm
      simp only [hs, hm, registerPrefixesForFace_eq, isBlacklisted, isWhitelisted]
      by_cases hp : p = FacePersistency.FACE_PERSISTENCY_ON_DEMAND
      · by_cases hb : (s.m_blackList.any fun net => net.doesContain (from_string parse uri.host).1) = true
        · simp [hp, hb]
        · by_cases hw : (s.m_whiteList.any fun net => net.doesContain (from_string parse uri.host).1) = true
          · simp [hp, hb, hw]
          · simp [hp, hb, hw]
      · simp [hp]
  · simp [hs]


theorem registerPrefixesIfNeeded_of_parsed (parse : AddressParser) (s : AutoregServer)
    (faceId : Nat) (uri : FaceUri) (p : FacePersistency) (address : Address)
    (hscheme : hasAllowedSchema uri = true) (hparse : parse uri.host = some address)
    (hmc : address.is_multicast = false) :
    registerPrefixesIfNeeded parse s faceId uri p =
      { s with
        m_controller :=
          s.m_controller ++ s.m_allFacesPrefixes.map (autoregCommand s.m_cost faceId) ++
            (if p = FacePersistency.FACE_PERSISTENCY_ON_DEMAND ∧
                isBlacklisted s address = false ∧ isWhitelisted s address = true then
              s.m_autoregPrefixes.map (autoregCommand s.m_cost faceId)
            else []) } := by
  have hfs : (from_string parse uri.host).1 = address := by simp [from_string, hparse]
  rw [registerPrefixesIfNeeded_eq, hfs, if_pos ⟨hscheme, hmc⟩]

theorem registerPrefixesIfNeeded_of_unparsed (parse : AddressParser) (s : AutoregServer)
    (faceId : Nat) (uri : FaceUri) (p : FacePersistency)
    (hscheme : hasAllowedSchema uri = true) (hparse : parse uri.host = none) :
    registerPrefixesIfNeeded parse s faceId uri p =
      { s with
        m_controller :=
          s.m_controller ++ s.m_allFacesPrefixes.map (autoregCommand s.m_cost faceId) ++
            (if p = FacePersistency.FACE_PERSISTENCY_ON_DEMAND ∧
                isBlacklisted s (Address.v4 0) = false ∧
                isWhitelisted s (Address.v4 0) = true then
              s.m_autoregPrefixes.map (autoregCommand s.m_cost faceId)
            else []) } := by
  have hfs : (from_string parse uri.host).1 = Address.v4 0 := by
    simp [from_string, hparse, Address.default]
  rw [registerPrefixesIfNeeded_eq, hfs, if_pos ⟨hscheme, by decide⟩]

theorem is_multicast_v4_iff (a : Nat) (ha : a < 2 ^ 32) :
    (Address.v4 a).is_multicast = true ↔ 224 * 2 ^ 24 ≤ a ∧ a < 240 * 2 ^ 24 := by
  simp only [Address.is_multicast, beq_iff_eq, Nat.mod_eq_of_lt ha]
  omega

theorem is_multicast_v6_iff (a : Nat) (ha : a < 2 ^ 128) :
    (Address.v6 a).is_multicast = true ↔ 255 * 2 ^ 120 ≤ a := by
  simp only [Address.is_multicast, beq_iff_eq, Nat.mod_eq_of_lt ha]
  omega

theorem isBlacklisted_eq_false_iff (s : AutoregServer) (address : Address) :
    isBlacklisted s address = false ↔ ∀ net ∈ s.m_blackList, net.doesContain address = false := by
  simp [isBlacklisted]

theorem isWhitelisted_eq_true_iff (s : AutoregServer) (address : Address) :
    isWhitelisted s address = true ↔ ∃ net ∈ s.m_whiteList, net.doesContain address = true := by
  simp [isWhitelisted]

theorem countP_autoregCommand (cost faceId : Nat) (pfx : Name) (names : List Name) :
    (names.map (autoregCommand cost faceId)).countP
        (fun c => c.name == pfx && c.faceId == faceId) = names.count pfx := by
  induction names with
  | nil => rfl
  | cons x xs ih =>
      rw [List.map_cons, List.countP_cons, ih, List.count_cons]
      simp [autoregCommand]

theorem getMaxRange_contains (address : Address) :
    Network.getMaxRangeV4.doesContain address = true ∨
      Network.getMaxRangeV6.doesContain address = true := by
  cases address with
  | v4 a =>
      left
      have h : a % 2 ^ 32 < 2 ^ 32 := Nat.mod_lt _ (by norm_num)
      simp [Network.doesContain, Network.getMaxRangeV4, Nat.div_eq_of_lt h]
  | v6 a =>
      right
      have h : a % 2 ^ 128 < 2 ^ 128 := Nat.mod_lt _ (by norm_num)
      simp [Network.doesContain, Network.getMaxRangeV6, Nat.div_eq_of_lt h]

/-! ## Claims -/

/-- C9: for every faceId and every list of names, `registerPrefixesForFace` starts, after
the commands already started, a sequence of commands as long as the list and in its order;
the command at position `i` carries the name at position `i`, the given faceId, the cost
`m_cost`, the origin `ROUTE_ORIGIN_AUTOREG` and the expiration `milliseconds::max()`.  The
other members are unchanged, and `m_cost` is the `cost` option when given and 255 otherwise. -/
theorem registerPrefixesForFace_commands (s : AutoregServer) (faceId : Nat)
    (prefixes : List Name) :
    (∃ issued : List ControlParameters,
      registerPrefixesForFace s faceId prefixes = { s with m_controller := s.m_controller ++ issued } ∧
      issued.length = prefixes.length ∧
      ∀ i : Nat, issued[i]? = prefixes[i]?.map (fun pfx =>
        { name := pfx
          faceId := faceId
          origin := RouteOrigin.ROUTE_ORIGIN_AUTOREG
          cost := s.m_cost
          expirationPeriod := 2 ^ 63 - 1 })) ∧
    AutoregServer.init.m_cost = 255 ∧
    ∀ options : Options, (notify AutoregServer.init options).m_cost = options.cost.getD 255 := by
  refine ⟨⟨prefixes.map (autoregCommand s.m_cost faceId), registerPrefixesForFace_eq s faceId prefixes,
    by simp, ?_⟩, rfl, fun _ => rfl⟩
  intro i
  rw [List.getElem?_map]
  rfl

/-- C10: for a notification of kind created whose scope is not local, `onNotification` does
exactly what `registerPrefixesIfNeeded` does for the faceId, remote URI and persistency of
the notification; for a notification of any other kind, or of local scope, it starts no
command and leaves the server as it was. -/
theorem onNotification_created_non_local (parse : AddressParser) (s : AutoregServer)
    (notification : FaceEventNotification) :
    (notification.kind = FaceEventKind.FACE_EVENT_CREATED →
      notification.faceScope ≠ FaceScope.FACE_SCOPE_LOCAL →
      onNotification parse s notification =
        registerPrefixesIfNeeded parse s notification.faceId notification.remoteUri
          notification.facePersistency) ∧
    (notification.kind ≠ FaceEventKind.FACE_EVENT_CREATED ∨
        notification.faceScope = FaceScope.FACE_SCOPE_LOCAL →
      onNotification parse s notification = s) := by
  constructor
  · intro hk hsc
    simp [onNotification, hk, hsc]
  · intro h
    rcases h with hk | hsc
    · simp [onNotification, hk]
    · simp [onNotification, hsc]

/-- Witness of C10 at the created notification of the non-local face udp4://192.0.2.5:6363
and at the created notification of a local face. -/
theorem onNotification_created_non_local_witness :
    onNotification dottedQuad sampleServer
        { kind := FaceEventKind.FACE_EVENT_CREATED
          faceId := 300
          remoteUri := sampleUri
          faceScope := FaceScope.FACE_SCOPE_NON_LOCAL
          facePersistency := FacePersistency.FACE_PERSISTENCY_ON_DEMAND } =
      registerPrefixesIfNeeded dottedQuad sampleServer 300 sampleUri
        FacePersistency.FACE_PERSISTENCY_ON_DEMAND ∧
    onNotification dottedQuad sampleServer loopbackCreated = sampleServer :=
  ⟨(onNotification_created_non_local dottedQuad sampleServer
      { kind := FaceEventKind.FACE_EVENT_CREATED
        faceId := 300
        remoteUri := sampleUri
        faceScope := FaceScope.FACE_SCOPE_NON_LOCAL
        facePersistency := FacePersistency.FACE_PERSISTENCY_ON_DEMAND }).1 rfl (by decide),
    (onNotification_created_non_local dottedQuad sampleServer loopbackCreated).2
      (Or.inr rfl)⟩

/-- C8: `hasAllowedSchema` is true exactly for the schemes udp4, tcp4, udp6 and tcp6, and
for a face whose scheme is none of the four `registerPrefixesIfNeeded` starts no command,
for every server configuration, address parser, faceId and persistency. -/
theorem registerPrefixesIfNeeded_other_scheme (uri : FaceUri) :
    (hasAllowedSchema uri = true ↔
      uri.scheme = "udp4" ∨ uri.scheme = "tcp4" ∨ uri.scheme = "udp6" ∨ uri.scheme = "tcp6") ∧
    (¬ (uri.scheme = "udp4" ∨ uri.scheme = "tcp4" ∨ uri.scheme = "udp6" ∨ uri.scheme = "tcp6") →
      ∀ (parse : AddressParser) (s : AutoregServer) (faceId : Nat) (p : FacePersistency),
        registerPrefixesIfNeeded parse s faceId uri p = s) := by
  have h : hasAllowedSchema uri = true ↔
      uri.scheme = "udp4" ∨ uri.scheme = "tcp4" ∨ uri.scheme = "udp6" ∨ uri.scheme = "tcp6" := by
    simp [hasAllowedSchema, or_assoc]
  refine ⟨h, fun hn parse s faceId p => ?_⟩
  have hf : ¬ hasAllowedSchema uri = true := fun hc => hn (h.mp hc)
  rw [registerPrefixesIfNeeded_eq, if_neg (fun hc => hf hc.1)]


/-- Witness of C8 at the scheme `fd` of a local Unix-stream face. -/
theorem registerPrefixesIfNeeded_other_scheme_witness :
    ¬ (("fd" : String) = "udp4" ∨ ("fd" : String) = "tcp4" ∨ ("fd" : String) = "udp6" ∨
        ("fd" : String) = "tcp6") ∧
    registerPrefixesIfNeeded dottedQuad
        sampleServer 7
        { scheme := "fd", host := "20", port := "" } FacePersistency.FACE_PERSISTENCY_ON_DEMAND =
      sampleServer :=
  ⟨by decide,
    (registerPrefixesIfNeeded_other_scheme { scheme := "fd", host := "20", port := "" }).2
      (by decide) dottedQuad sampleServer 7
      FacePersistency.FACE_PERSISTENCY_ON_DEMAND⟩

/-- C7: for a face whose host parses to a multicast address, that is an IPv4 address in
224.0.0.0/4 or an IPv6 address in ff00::/8, `is_multicast` is true and
`registerPrefixesIfNeeded` starts no command, for every scheme, persistency and server
configuration (white list, black list, all-faces and autoreg names). -/
theorem registerPrefixesIfNeeded_multicast (parse : AddressParser) (s : AutoregServer)
    (faceId : Nat) (uri : FaceUri) (p : FacePersistency) (address : Address)
    (hparse : parse uri.host = some address)
    (hmc : (∃ a, address = Address.v4 a ∧ a < 2 ^ 32 ∧ 224 * 2 ^ 24 ≤ a ∧ a < 240 * 2 ^ 24) ∨
      (∃ a, address = Address.v6 a ∧ a < 2 ^ 128 ∧ 255 * 2 ^ 120 ≤ a)) :
    address.is_multicast = true ∧ registerPrefixesIfNeeded parse s faceId uri p = s := by
  have hm : address.is_multicast = true := by
    rcases hmc with ⟨a, rfl, ha, hlo, hhi⟩ | ⟨a, rfl, ha, hlo⟩
    · exact (is_multicast_v4_iff a ha).mpr ⟨hlo, hhi⟩
    · exact (is_multicast_v6_iff a ha).mpr hlo
  refine ⟨hm, ?_⟩
  have hfs : (from_string parse uri.host).1 = address := by simp [from_string, hparse]
  rw [registerPrefixesIfNeeded_eq, hfs, if_neg]
  simp [hm]

/-- Witness of C7 at the face udp4://224.0.0.1:56363. -/
theorem registerPrefixesIfNeeded_multicast_witness :
    dottedQuad "224.0.0.1" = some (Address.v4 3758096385) ∧
    registerPrefixesIfNeeded dottedQuad
        sampleServer 7
        { scheme := "udp4", host := "224.0.0.1", port := "56363" }
        FacePersistency.FACE_PERSISTENCY_ON_DEMAND =
      sampleServer :=
  ⟨by decide,
    (registerPrefixesIfNeeded_multicast dottedQuad
      sampleServer 7
      { scheme := "udp4", host := "224.0.0.1", port := "56363" }
      FacePersistency.FACE_PERSISTENCY_ON_DEMAND (Address.v4 3758096385) (by decide)
      (Or.inl ⟨3758096385, rfl, by norm_num, by norm_num, by norm_num⟩)).2⟩

/-- C3: for a face with an allowed scheme whose host parses to a non-multicast address, the
commands for the autoreg names are started, after those for the all-faces names, when the
persistency is on-demand, no black-list range contains the address and some white-list
range contains it; otherwise only the commands for the all-faces names are started.  In
particular a persistency other than on-demand, or an address in a black-list range (also
one that is in a white-list range too), gets no autoreg command. -/
theorem registerPrefixesIfNeeded_autoreg_iff (parse : AddressParser) (s : AutoregServer)
    (faceId : Nat) (uri : FaceUri) (p : FacePersistency) (address : Address)
    (hscheme : hasAllowedSchema uri = true) (hparse : parse uri.host = some address)
    (hmc : address.is_multicast = false) :
    ((p = FacePersistency.FACE_PERSISTENCY_ON_DEMAND ∧
        (∀ net ∈ s.m_blackList, net.doesContain address = false) ∧
        (∃ net ∈ s.m_whiteList, net.doesContain address = true)) →
      registerPrefixesIfNeeded parse s faceId uri p =
        { s with
          m_controller :=
            s.m_controller ++ s.m_allFacesPrefixes.map (autoregCommand s.m_cost faceId) ++
              s.m_autoregPrefixes.map (autoregCommand s.m_cost faceId) }) ∧
    (¬ (p = FacePersistency.FACE_PERSISTENCY_ON_DEMAND ∧
        (∀ net ∈ s.m_blackList, net.doesContain address = false) ∧
        (∃ net ∈ s.m_whiteList, net.doesContain address = true)) →
      registerPrefixesIfNeeded parse s faceId uri p =
        { s with
          m_controller :=
            s.m_controller ++ s.m_allFacesPrefixes.map (autoregCommand s.m_cost faceId) }) ∧
    (p ≠ FacePersistency.FACE_PERSISTENCY_ON_DEMAND ∨
        (∃ net ∈ s.m_blackList, net.doesContain address = true) →
      registerPrefixesIfNeeded parse s faceId uri p =
        { s with
          m_controller :=
            s.m_controller ++ s.m_allFacesPrefixes.map (autoregCommand s.m_cost faceId) }) := by
  have key := registerPrefixesIfNeeded_of_parsed parse s faceId uri p address hscheme hparse hmc
  have hiff : (p = FacePersistency.FACE_PERSISTENCY_ON_DEMAND ∧
        isBlacklisted s address = false ∧ isWhitelisted s address = true) ↔
      (p = FacePersistency.FACE_PERSISTENCY_ON_DEMAND ∧
        (∀ net ∈ s.m_blackList, net.doesContain address = false) ∧
        (∃ net ∈ s.m_whiteList, net.doesContain address = true)) := by
    rw [isBlacklisted_eq_false_iff, isWhitelisted_eq_true_iff]
  have hneg : ¬ (p = FacePersistency.FACE_PERSISTENCY_ON_DEMAND ∧
        (∀ net ∈ s.m_blackList, net.doesContain address = false) ∧
        (∃ net ∈ s.m_whiteList, net.doesContain address = true)) →
      registerPrefixesIfNeeded parse s faceId uri p =
        { s with
          m_controller :=
            s.m_controller ++ s.m_allFacesPrefixes.map (autoregCommand s.m_cost faceId) } := by
    intro hc
    rw [key, if_neg (fun h => hc (hiff.mp h)), List.append_nil]
  refine ⟨fun hc => ?_, hneg, fun h => hneg ?_⟩
  · rw [key, if_pos (hiff.mpr hc)]
  · rintro ⟨hp, hb, -⟩
    rcases h with hnp | ⟨net, hnet, hin⟩
    · exact hnp hp
    · rw [hb net hnet] at hin
      exact Bool.false_ne_true hin


/-- Witness of C3 at the face udp4://192.0.2.5:6363: with the default white list an on-demand
face gets the autoreg command after the all-faces command, and with 192.0.2.0/24 on the
black list it gets the all-faces command only. -/
theorem registerPrefixesIfNeeded_autoreg_iff_witness :
    registerPrefixesIfNeeded dottedQuad sampleServer 300 sampleUri
        FacePersistency.FACE_PERSISTENCY_ON_DEMAND =
      { sampleServer with
        m_controller :=
          sampleServer.m_controller ++
            sampleServer.m_allFacesPrefixes.map (autoregCommand sampleServer.m_cost 300) ++
            sampleServer.m_autoregPrefixes.map (autoregCommand sampleServer.m_cost 300) } ∧
    registerPrefixesIfNeeded dottedQuad blacklistServer 300 sampleUri
        FacePersistency.FACE_PERSISTENCY_ON_DEMAND =
      { blacklistServer with
        m_controller :=
          blacklistServer.m_controller ++
            blacklistServer.m_allFacesPrefixes.map (autoregCommand blacklistServer.m_cost 300) } :=
  ⟨(registerPrefixesIfNeeded_autoreg_iff dottedQuad sampleServer 300 sampleUri
      FacePersistency.FACE_PERSISTENCY_ON_DEMAND (Address.v4 3221225989)
      (by decide) (by decide) (by decide)).1
      ⟨rfl, by simp [sampleServer], Network.getMaxRangeV4, by simp [sampleServer], by decide⟩,
    (registerPrefixesIfNeeded_autoreg_iff dottedQuad blacklistServer 300 sampleUri
      FacePersistency.FACE_PERSISTENCY_ON_DEMAND (Address.v4 3221225989)
      (by decide) (by decide) (by decide)).2.2
      (Or.inr ⟨{ family := AddressFamily.ipv4, base := 3221225984, prefixLength := 24 },
        by simp [blacklistServer], by decide⟩)⟩

/-- C4: for a face with an allowed scheme whose host parses to a non-multicast address, one
command is started for each all-faces name, in order, and these commands are the same in
two runs that differ only in white list, black list and persistency; what follows them in
a run is nothing or the commands for the autoreg names. -/
theorem registerPrefixesIfNeeded_allFaces_independent (parse : AddressParser)
    (s : AutoregServer) (faceId : Nat) (uri : FaceUri) (address : Address)
    (whiteList2 blackList2 : List Network) (p1 p2 : FacePersistency)
    (hscheme : hasAllowedSchema uri = true) (hparse : parse uri.host = some address)
    (hmc : address.is_multicast = false) :
    ∃ rest1 rest2 : List ControlParameters,
      (registerPrefixesIfNeeded parse s faceId uri p1).m_controller =
        s.m_controller ++ s.m_allFacesPrefixes.map (autoregCommand s.m_cost faceId) ++ rest1 ∧
      (registerPrefixesIfNeeded parse
          { s with m_whiteList := whiteList2, m_blackList := blackList2 } faceId uri p2).m_controller =
        s.m_controller ++ s.m_allFacesPrefixes.map (autoregCommand s.m_cost faceId) ++ rest2 ∧
      (rest1 = [] ∨ rest1 = s.m_autoregPrefixes.map (autoregCommand s.m_cost faceId)) ∧
      (rest2 = [] ∨ rest2 = s.m_autoregPrefixes.map (autoregCommand s.m_cost faceId)) := by
  have k1 := registerPrefixesIfNeeded_of_parsed parse s faceId uri p1 address hscheme hparse hmc
  have k2 := registerPrefixesIfNeeded_of_parsed parse
    { s with m_whiteList := whiteList2, m_blackList := blackList2 } faceId uri p2 address
    hscheme hparse hmc
  refine ⟨_, _, congrArg AutoregServer.m_controller k1, congrArg AutoregServer.m_controller k2, ?_, ?_⟩
  · split
    · exact Or.inr rfl
    · exact Or.inl rfl
  · split
    · exact Or.inr rfl
    · exact Or.inl rfl

/-- Witness of C4: the on-demand face udp4://192.0.2.5:6363 under the default white list,
and the same face as persistent under an empty white list and a black list with
192.0.2.0/24. -/
theorem registerPrefixesIfNeeded_allFaces_independent_witness :
    ∃ rest1 rest2 : List ControlParameters,
      (registerPrefixesIfNeeded dottedQuad sampleServer 300 sampleUri
          FacePersistency.FACE_PERSISTENCY_ON_DEMAND).m_controller =
        sampleServer.m_controller ++
          sampleServer.m_allFacesPrefixes.map (autoregCommand sampleServer.m_cost 300) ++ rest1 ∧
      (registerPrefixesIfNeeded dottedQuad
          { sampleServer with m_whiteList := [], m_blackList := blacklistServer.m_blackList }
          300 sampleUri FacePersistency.FACE_PERSISTENCY_PERSISTENT).m_controller =
        sampleServer.m_controller ++
          sampleServer.m_allFacesPrefixes.map (autoregCommand sampleServer.m_cost 300) ++ rest2 ∧
      (rest1 = [] ∨ rest1 = sampleServer.m_autoregPrefixes.map (autoregCommand sampleServer.m_cost 300)) ∧
      (rest2 = [] ∨ rest2 = sampleServer.m_autoregPrefixes.map (autoregCommand sampleServer.m_cost 300)) :=
  registerPrefixesIfNeeded_allFaces_independent dottedQuad sampleServer 300 sampleUri
    (Address.v4 3221225989) [] blacklistServer.m_blackList
    FacePersistency.FACE_PERSISTENCY_ON_DEMAND FacePersistency.FACE_PERSISTENCY_PERSISTENT
    (by decide) (by decide) (by decide)


/-- C5: when the command line gives no white list and no black list and `main` goes on to
serve, the white list of the server is the two maximal ranges, `isWhitelisted` is true for
every address, and every on-demand face with an allowed scheme whose host parses to a
non-multicast address gets, after the all-faces commands, one command for each autoreg
name, whatever was started before. -/
theorem main_empty_whitelist_allows_all (options : Options) (s0 : AutoregServer)
    (hw : options.whitelist = []) (hb : options.blacklist = [])
    (hmain : main options = Startup.serve s0) :
    s0.m_whiteList = [Network.getMaxRangeV4, Network.getMaxRangeV6] ∧
    s0.m_autoregPrefixes = options.prefixes ∧
    (∀ (controller : Controller) (address : Address),
      isWhitelisted { s0 with m_controller := controller } address = true) ∧
    ∀ (parse : AddressParser) (controller : Controller) (faceId : Nat) (uri : FaceUri)
      (address : Address),
      hasAllowedSchema uri = true → parse uri.host = some address →
      address.is_multicast = false →
      registerPrefixesIfNeeded parse { s0 with m_controller := controller } faceId uri
          FacePersistency.FACE_PERSISTENCY_ON_DEMAND =
        { s0 with
          m_controller :=
            controller ++ s0.m_allFacesPrefixes.map (autoregCommand s0.m_cost faceId) ++
              options.prefixes.map (autoregCommand s0.m_cost faceId) } := by
  have hs0 : s0 = { notify AutoregServer.init options with
      m_whiteList := [Network.getMaxRangeV4, Network.getMaxRangeV6] } := by
    unfold main at hmain
    simp only at hmain
    split_ifs at hmain with h1 h2 h3 h4
    · injection hmain with h
      rw [← h]
      simp [notify, AutoregServer.init, hw]
    · simp [notify, AutoregServer.init, hw] at h4
  have hwl : s0.m_whiteList = [Network.getMaxRangeV4, Network.getMaxRangeV6] := by rw [hs0]
  have hbl : s0.m_blackList = [] := by rw [hs0]; simp [notify, AutoregServer.init, hb]
  have hap : s0.m_autoregPrefixes = options.prefixes := by
    rw [hs0]; simp [notify, AutoregServer.init]
  have hall : ∀ (controller : Controller) (address : Address),
      isWhitelisted { s0 with m_controller := controller } address = true := by
    intro controller address
    rw [isWhitelisted_eq_true_iff]
    rcases getMaxRange_contains address with h | h
    · exact ⟨Network.getMaxRangeV4, by simp [hwl], h⟩
    · exact ⟨Network.getMaxRangeV6, by simp [hwl], h⟩
  refine ⟨hwl, hap, hall, ?_⟩
  intro parse controller faceId uri address hscheme hparse hmc
  rw [registerPrefixesIfNeeded_of_parsed parse _ faceId uri _ address hscheme hparse hmc, if_pos]
  · simp [hap]
  · exact ⟨rfl, by simp [isBlacklisted, hbl], hall controller address⟩

/-- Witness of C5 at the command line `nfd-autoreg -i /autoreg -a /all` and the face
udp4://192.0.2.5:6363. -/
theorem main_empty_whitelist_allows_all_witness :
    main sampleOptions = Startup.serve sampleServer ∧
    registerPrefixesIfNeeded dottedQuad { sampleServer with m_controller := [] } 300 sampleUri
        FacePersistency.FACE_PERSISTENCY_ON_DEMAND =
      { sampleServer with
        m_controller :=
          [] ++ sampleServer.m_allFacesPrefixes.map (autoregCommand sampleServer.m_cost 300) ++
            sampleOptions.prefixes.map (autoregCommand sampleServer.m_cost 300) } :=
  ⟨by decide,
    (main_empty_whitelist_allows_all sampleOptions sampleServer rfl rfl (by decide)).2.2.2
      dottedQuad [] 300 sampleUri (Address.v4 3221225989) (by decide) (by decide) (by decide)⟩

/-- C6, as stated, fails: with the name /ndn both an autoreg name and an all-faces name,
processing the on-demand face udp4://192.0.2.5:6363 once starts two commands that name
/ndn on that face. -/
theorem registerPrefixesIfNeeded_twice_counterexample :
    ["ndn"] ∈ overlapServer.m_allFacesPrefixes ∧
    hasAllowedSchema sampleUri = true ∧
    dottedQuad sampleUri.host = some (Address.v4 3221225989) ∧
    (Address.v4 3221225989).is_multicast = false ∧
    (registerPrefixesIfNeeded dottedQuad overlapServer 300 sampleUri
        FacePersistency.FACE_PERSISTENCY_ON_DEMAND).m_controller.countP
      (fun c => c.name == ["ndn"] && c.faceId == 300) = 2 := by
  decide

/-- C6, amended: for a face with an allowed scheme whose host parses to a non-multicast
address, processing the face once starts, for every name, as many commands with that name
on that faceId as the name has occurrences in the all-faces names plus, when the autoreg
condition holds, its occurrences in the autoreg names. -/
theorem registerPrefixesIfNeeded_command_count (parse : AddressParser) (s : AutoregServer)
    (faceId : Nat) (uri : FaceUri) (p : FacePersistency) (address : Address)
    (hscheme : hasAllowedSchema uri = true) (hparse : parse uri.host = some address)
    (hmc : address.is_multicast = false) :
    ∃ issued : List ControlParameters,
      registerPrefixesIfNeeded parse s faceId uri p =
        { s with m_controller := s.m_controller ++ issued } ∧
      ∀ pfx : Name,
        issued.countP (fun c => c.name == pfx && c.faceId == faceId) =
          s.m_allFacesPrefixes.count pfx +
            (if p = FacePersistency.FACE_PERSISTENCY_ON_DEMAND ∧
                (∀ net ∈ s.m_blackList, net.doesContain address = false) ∧
                (∃ net ∈ s.m_whiteList, net.doesContain address = true) then
              s.m_autoregPrefixes.count pfx
            else 0) := by
  have key := registerPrefixesIfNeeded_of_parsed parse s faceId uri p address hscheme hparse hmc
  rw [List.append_assoc] at key
  refine ⟨_, key, fun pfx => ?_⟩
  rw [List.countP_append, countP_autoregCommand]
  by_cases hc : p = FacePersistency.FACE_PERSISTENCY_ON_DEMAND ∧
      (∀ net ∈ s.m_blackList, net.doesContain address = false) ∧
      (∃ net ∈ s.m_whiteList, net.doesContain address = true)
  · have hc2 : p = FacePersistency.FACE_PERSISTENCY_ON_DEMAND ∧
        isBlacklisted s address = false ∧ isWhitelisted s address = true :=
      ⟨hc.1, (isBlacklisted_eq_false_iff s address).mpr hc.2.1,
        (isWhitelisted_eq_true_iff s address).mpr hc.2.2⟩
    rw [if_pos hc, if_pos hc2, countP_autoregCommand]
  · have hc2 : ¬ (p = FacePersistency.FACE_PERSISTENCY_ON_DEMAND ∧
        isBlacklisted s address = false ∧ isWhitelisted s address = true) := fun h =>
      hc ⟨h.1, (isBlacklisted_eq_false_iff s address).mp h.2.1,
        (isWhitelisted_eq_true_iff s address).mp h.2.2⟩
    rw [if_neg hc, if_neg hc2]
    rfl

/-- Witness of C6, amended, at the sample server and the face udp4://192.0.2.5:6363. -/
theorem registerPrefixesIfNeeded_command_count_witness :
    ∃ issued : List ControlParameters,
      registerPrefixesIfNeeded dottedQuad sampleServer 300 sampleUri
          FacePersistency.FACE_PERSISTENCY_ON_DEMAND =
        { sampleServer with m_controller := sampleServer.m_controller ++ issued } ∧
      ∀ pfx : Name,
        issued.countP (fun c => c.name == pfx && c.faceId == 300) =
          sampleServer.m_allFacesPrefixes.count pfx +
            (if FacePersistency.FACE_PERSISTENCY_ON_DEMAND =
                  FacePersistency.FACE_PERSISTENCY_ON_DEMAND ∧
                (∀ net ∈ sampleServer.m_blackList,
                  net.doesContain (Address.v4 3221225989) = false) ∧
                (∃ net ∈ sampleServer.m_whiteList,
                  net.doesContain (Address.v4 3221225989) = true) then
              sampleServer.m_autoregPrefixes.count pfx
            else 0) :=
  registerPrefixesIfNeeded_command_count dottedQuad sampleServer 300 sampleUri
    FacePersistency.FACE_PERSISTENCY_ON_DEMAND (Address.v4 3221225989)
    (by decide) (by decide) (by decide)

/-- C1 fails on the dataset path: the loop over the fetched face statuses does not read
the scope, so the local face tcp4://127.0.0.1:45678 of the dataset gets the all-faces and
the autoreg command, while the created notification of the same face gets none. -/
theorem onFaceDataset_registers_local_face :
    loopbackFace.faceScope = FaceScope.FACE_SCOPE_LOCAL ∧
    (onFaceDataset dottedQuad sampleServer [loopbackFace]).m_controller =
      [autoregCommand 255 300 ["all"], autoregCommand 255 300 ["autoreg"]] ∧
    (onNotification dottedQuad sampleServer loopbackCreated).m_controller = [] := by
  decide

/-- C2 fails: for the face udp4://example.com:6363 the host is not an address, `from_string`
hands back the default address 0.0.0.0 with the error code set, the error code is not
read, and the all-faces and the autoreg command are started. -/
theorem registerPrefixesIfNeeded_unparsed_host_registers :
    hasAllowedSchema hostnameUri = true ∧
    dottedQuad hostnameUri.host = none ∧
    from_string dottedQuad hostnameUri.host = (Address.v4 0, true) ∧
    (registerPrefixesIfNeeded dottedQuad sampleServer 300 hostnameUri
        FacePersistency.FACE_PERSISTENCY_ON_DEMAND).m_controller =
      [autoregCommand 255 300 ["all"], autoregCommand 255 300 ["autoreg"]] := by
  decide

end nfd.tools.autoreg
